import Mathlib

/-!
Verification of the MinIO STS `AssumeRoleWithSAMLHandler` (cmd/sts-handlers.go)
against its natural-language specification.

The handler is embedded shallowly as a pure function from a request (the parsed
form, or `none` when `r.ParseForm()` fails), an environment of external
collaborators (`ParseSAMLResponse`, the outbound IdP POST, the credential
minter, the clock), and the prior process-wide credential store, to an
`Outcome` recording the HTTP response, the resulting credential store, the
outbound IdP call (if issued), the expiry handed to the minter (if reached),
the IdP call result (if a call was made), and the trace of pipeline stages
passed.
-/

/-! ## Go primitives: `url.Values.Get`, `strconv.ParseInt` -/

/-- Go's `url.Values.Get`: returns the empty string when the key is absent. -/
def formGet : Option String → String
  | none => ""
  | some s => s

/-- Accumulate decimal digits (caller has checked all chars are digits). -/
def digitsToNat (l : List Char) : Nat :=
  l.foldl (fun a c => a * 10 + (c.toNat - 48)) 0

/-- Go's `strconv.ParseInt(s, 10, 64)`: optional single leading sign, at least
one decimal digit, no other characters, and the value must fit in a signed
64-bit integer (out-of-range input yields `ErrRange`, i.e. `none` here). -/
def parseInt10 (s : String) : Option Int :=
  match s.data with
  | [] => none
  | c :: rest =>
    let neg : Bool := c = '-'
    let digits : List Char := if c = '-' ∨ c = '+' then rest else c :: rest
    if digits = [] then none
    else if digits.all Char.isDigit then
      let n : Nat := digitsToNat digits
      let v : Int := if neg then -(n : Int) else (n : Int)
      if -(2 ^ 63) ≤ v ∧ v ≤ 2 ^ 63 - 1 then some v else none
    else none

/-! ## Go primitives: UTF-8 bytes of a string (as `io.WriteString` emits) -/

/-- UTF-8 encoding of one character, as a list of byte values. -/
def utf8Char (c : Char) : List Nat :=
  let n := c.toNat
  if n < 0x80 then [n]
  else if n < 0x800 then
    [0xC0 ||| (n >>> 6), 0x80 ||| (n &&& 0x3F)]
  else if n < 0x10000 then
    [0xE0 ||| (n >>> 12), 0x80 ||| ((n >>> 6) &&& 0x3F), 0x80 ||| (n &&& 0x3F)]
  else
    [0xF0 ||| (n >>> 18), 0x80 ||| ((n >>> 12) &&& 0x3F),
     0x80 ||| ((n >>> 6) &&& 0x3F), 0x80 ||| (n &&& 0x3F)]

/-- UTF-8 bytes of a Go string. -/
def utf8Bytes (s : String) : List Nat :=
  (s.data.map utf8Char).flatten

/-! ## `crypto/sha1`: the SHA-1 digest over a list of bytes -/

/-- Rotate a 32-bit word left by `n` bits. -/
def rotl32 (n x : Nat) : Nat :=
  ((x <<< n) ||| (x >>> (32 - n))) % 4294967296

/-- SHA-1 round constant for round `t`. -/
def sha1K (t : Nat) : Nat :=
  if t < 20 then 0x5A827999
  else if t < 40 then 0x6ED9EBA1
  else if t < 60 then 0x8F1BBCDC
  else 0xCA62C1D6

/-- SHA-1 round function for round `t`. -/
def sha1F (t b c d : Nat) : Nat :=
  if t < 20 then (b &&& c) ||| ((b ^^^ 0xFFFFFFFF) &&& d)
  else if t < 40 then b ^^^ c ^^^ d
  else if t < 60 then (b &&& c) ||| (b &&& d) ||| (c &&& d)
  else b ^^^ c ^^^ d

/-- Big-endian 4-byte encoding of a 32-bit word. -/
def be32 (n : Nat) : List Nat :=
  [(n >>> 24) &&& 255, (n >>> 16) &&& 255, (n >>> 8) &&& 255, n &&& 255]

/-- Big-endian 8-byte encoding of a 64-bit length. -/
def be64 (n : Nat) : List Nat :=
  [(n >>> 56) &&& 255, (n >>> 48) &&& 255, (n >>> 40) &&& 255, (n >>> 32) &&& 255,
   (n >>> 24) &&& 255, (n >>> 16) &&& 255, (n >>> 8) &&& 255, n &&& 255]

/-- Merkle–Damgård padding: append `0x80`, zero bytes to 56 mod 64, then the
message bit length as a big-endian 64-bit value. -/
def sha1Pad (msg : List Nat) : List Nat :=
  msg ++ [0x80] ++ List.replicate ((119 - msg.length % 64) % 64) 0
      ++ be64 (msg.length * 8)

/-- Pack bytes into big-endian 32-bit words, four at a time. -/
def bytesToWords : List Nat → List Nat
  | a :: b :: c :: d :: rest =>
    ((a <<< 24) ||| (b <<< 16) ||| (c <<< 8) ||| d) :: bytesToWords rest
  | _ => []

/-- Extend 16 message-schedule words to 80. -/
def sha1Extend (w0 : Array Nat) : Array Nat :=
  (List.range 64).foldl
    (fun w _ =>
      let i := w.size
      w.push (rotl32 1 (w.getD (i - 3) 0 ^^^ w.getD (i - 8) 0 ^^^
                        w.getD (i - 14) 0 ^^^ w.getD (i - 16) 0)))
    w0

/-- The five-word SHA-1 chaining state. -/
structure Sha1State where
  a : Nat
  b : Nat
  c : Nat
  d : Nat
  e : Nat
deriving DecidableEq, Repr

/-- Compress one 512-bit block into the chaining state. -/
def sha1Compress (h : Sha1State) (block : List Nat) : Sha1State :=
  let w := sha1Extend (Array.mk (bytesToWords block))
  let f := (List.range 80).foldl
    (fun st t =>
      let temp := (rotl32 5 st.a + sha1F t st.b st.c st.d + st.e + sha1K t +
                   w.getD t 0) % 4294967296
      ⟨temp, st.a, rotl32 30 st.b, st.c, st.d⟩)
    h
  ⟨(h.a + f.a) % 4294967296, (h.b + f.b) % 4294967296, (h.c + f.c) % 4294967296,
   (h.d + f.d) % 4294967296, (h.e + f.e) % 4294967296⟩

/-- Split a padded message into 64-byte blocks (`n` = number of blocks). -/
def chunks64 : Nat → List Nat → List (List Nat)
  | 0, _ => []
  | n + 1, l => l.take 64 :: chunks64 n (l.drop 64)

/-- SHA-1 digest (20 bytes) of a byte list, as in Go's `crypto/sha1`. -/
def sha1Bytes (msg : List Nat) : List Nat :=
  let padded := sha1Pad msg
  let final := (chunks64 (padded.length / 64) padded).foldl sha1Compress
    ⟨0x67452301, 0xEFCDAB89, 0x98BADCFE, 0x10325476, 0xC3D2E1F0⟩
  be32 final.a ++ be32 final.b ++ be32 final.c ++ be32 final.d ++ be32 final.e

/-! ## `encoding/base64` standard encoding with padding -/

/-- Digit of the standard base64 alphabet. -/
def b64Digit (n : Nat) : Char :=
  "ABCDEFGHIJKLMNOPQRSTUVWXYZabcdefghijklmnopqrstuvwxyz0123456789+/".data.getD n 'A'

/-- Standard base64 encoding (with `=` padding) of a byte list, as in Go's
`base64.StdEncoding.EncodeToString`. -/
def base64Encode : List Nat → String
  | [] => ""
  | [a] =>
    String.mk [b64Digit (a >>> 2), b64Digit ((a &&& 3) <<< 4), '=', '=']
  | [a, b] =>
    String.mk [b64Digit (a >>> 2), b64Digit (((a &&& 3) <<< 4) ||| (b >>> 4)),
               b64Digit ((b &&& 15) <<< 2), '=']
  | a :: b :: c :: rest =>
    String.mk [b64Digit (a >>> 2), b64Digit (((a &&& 3) <<< 4) ||| (b >>> 4)),
               b64Digit (((b &&& 15) <<< 2) ||| (c >>> 6)), b64Digit (c &&& 63)]
      ++ base64Encode rest

/-! ## Data model -/

/-- STS API version accepted by the handler (`stsAPIVersion` in the source). -/
def stsAPIVersion : String := "2011-06-15"

/-- Modelled from the spec: the issuer element of the parsed SAML response,
carrying the issuer URL (the source reads `samlResp.Issuer.URL`). -/
structure SAMLIssuer where
  URL : String
deriving DecidableEq, Repr

/-- Modelled from the spec: the structured SAML assertion handle produced by
the external `ParseSAMLResponse` (destination URL, issuer, and the original
base64 payload kept verbatim for re-sending to the IdP). -/
structure SAMLHandle where
  Destination : String
  Issuer : SAMLIssuer
  origSAMLAssertion : String
deriving DecidableEq, Repr

/-- Modelled from the spec: the credential triple minted by
`getNewCredentialWithExpiry`, with its absolute expiry timestamp (seconds). -/
structure credential where
  AccessKey : String
  SecretKey : String
  SessionToken : String
  Expiry : Int
deriving DecidableEq, Repr

/-- The parsed form body: the three fields the handler reads. `none` models an
absent field (Go's `url.Values.Get` then returns `""`). -/
structure Form where
  Version : Option String
  SAMLAssertion : Option String
  DurationSeconds : Option String
deriving DecidableEq, Repr

/-- `AssumedRoleUser` wire entity (source lines 56-72). -/
structure AssumedRoleUser where
  Arn : String
  AssumedRoleID : String
deriving DecidableEq, Repr

/-- `AssumeRoleWithSAMLResult` wire entity (source lines 77-126). -/
structure AssumeRoleWithSAMLResult where
  AssumedRoleUser : AssumedRoleUser
  Audience : String
  Credentials : credential
  Issuer : String
  NameQualifier : String
  PackedPolicySize : Int
  Subject : String
  SubjectType : String
deriving DecidableEq, Repr

/-- The two STS error codes this handler emits. -/
inductive STSErrorCode where
  | MalformedPolicyDocument
  | IDPRejectedClaim
deriving DecidableEq, Repr

/-- The handler's response: one XML error document, or HTTP 200 with the
result. -/
inductive STSResponse where
  | error (code : STSErrorCode)
  | success (result : AssumeRoleWithSAMLResult)
deriving DecidableEq, Repr

/-- Pipeline stages of the handler, per request. -/
inductive Stage where
  | Start
  | FormParsed
  | AssertionParsed
  | DurationResolved
  | IdPConfirmed
  | CredentialMinted
  | Published
  | ResponseSent
deriving DecidableEq, Repr

/-- The environment of external collaborators the handler consumes:
`ParseSAMLResponse`, the outbound IdP form POST (returning a network error or
an HTTP status code), `getNewCredentialWithExpiry`, and the clock `UTCNow`
(seconds). All are modelled from the spec's collaborator interfaces. -/
structure STSEnv where
  ParseSAMLResponse : String → Except String SAMLHandle
  postForm : String → String → Except String Nat
  getNewCredentialWithExpiry : Int → Except String credential
  UTCNow : Int

deriving instance DecidableEq for Except

/-- Everything one handler invocation produces: the response written, the
process-wide credential store afterwards, the outbound IdP call (destination,
`SAMLResponse` field) if one was issued, that call's result, the expiry passed
to the minter if minting was reached, and the ordered trace of stages passed. -/
structure Outcome where
  response : STSResponse
  serverCreds : Option credential
  idpCall : Option (String × String)
  idpResult : Option (Except String Nat)
  mintExpiry : Option Int
  trace : List Stage
deriving DecidableEq, Repr

/-! ## The handler (source lines 128–234) -/

/-- Duration resolution (source lines 185–207): default expiry is now + 4 h;
a non-empty `DurationSeconds` must parse as a base-10 64-bit integer and is
clamped to [900, 14400] seconds. -/
def resolveExpiry (now : Int) (durationSeconds : String) : Except String Int :=
  let expiryTime := now + 240 * 60  -- Defaults to 4hrs.
  if durationSeconds ≠ "" then
    match parseInt10 durationSeconds with
    | none => .error "Unable to parse DurationSeconds"
    | some expirySecs0 =>
      let expirySecs1 := if expirySecs0 < 900 then 900 else expirySecs0
      let expirySecs2 := if expirySecs1 > 14400 then 14400 else expirySecs1
      .ok (now + expirySecs2)
  else
    .ok expiryTime

/-- `NameQualifier` computation (source lines 216–218):
base64(SHA-1(issuer URL ++ "0000" ++ "myidp")). -/
def nameQualifierOf (issuerURL : String) : String :=
  base64Encode (sha1Bytes (utf8Bytes (issuerURL ++ "0000" ++ "myidp")))

/-- The handler body after a successful `r.ParseForm()`, taking the three
`PostForm.Get` results (Go's `Get` is pure, so reading them up front is
equivalent to the source's reads at use sites). -/
def handlerCore (env : STSEnv) (version samlAssertion durationSeconds : String)
    (creds0 : Option credential) : Outcome :=
  if version ≠ stsAPIVersion then
    ⟨.error .MalformedPolicyDocument, creds0, none, none, none,
      [.Start, .FormParsed]⟩
  else
    match env.ParseSAMLResponse samlAssertion with
    | .error _ =>
      ⟨.error .MalformedPolicyDocument, creds0, none, none, none,
        [.Start, .FormParsed]⟩
    | .ok samlResp =>
      let call := (samlResp.Destination, samlResp.origSAMLAssertion)
      match env.postForm samlResp.Destination samlResp.origSAMLAssertion with
      | .error rerr =>
        ⟨.error .MalformedPolicyDocument, creds0, some call, some (.error rerr),
          none, [.Start, .FormParsed, .AssertionParsed]⟩
      | .ok status =>
        if 500 ≤ status then
          ⟨.error .IDPRejectedClaim, creds0, some call, some (.ok status),
            none, [.Start, .FormParsed, .AssertionParsed]⟩
        else
          match resolveExpiry env.UTCNow durationSeconds with
          | .error _ =>
            ⟨.error .MalformedPolicyDocument, creds0, some call,
              some (.ok status), none,
              [.Start, .FormParsed, .AssertionParsed, .IdPConfirmed]⟩
          | .ok expiryTime =>
            match env.getNewCredentialWithExpiry expiryTime with
            | .error _ =>
              ⟨.error .MalformedPolicyDocument, creds0, some call,
                some (.ok status), some expiryTime,
                [.Start, .FormParsed, .AssertionParsed, .IdPConfirmed,
                 .DurationResolved]⟩
            | .ok cred =>
              let nq := nameQualifierOf samlResp.Issuer.URL
              ⟨.success
                  { AssumedRoleUser := ⟨"", ""⟩
                    Audience := ""
                    Credentials := cred
                    Issuer := samlResp.Issuer.URL
                    NameQualifier := nq
                    PackedPolicySize := 0
                    Subject := ""
                    SubjectType := "" },
                some cred, some call, some (.ok status), some expiryTime,
                [.Start, .FormParsed, .AssertionParsed, .IdPConfirmed,
                 .DurationResolved, .CredentialMinted, .Published,
                 .ResponseSent]⟩

/-- `AssumeRoleWithSAMLHandler`: `req = none` models `r.ParseForm()` failing. -/
def AssumeRoleWithSAMLHandler (env : STSEnv) (req : Option Form)
    (creds0 : Option credential) : Outcome :=
  match req with
  | none =>
    ⟨.error .MalformedPolicyDocument, creds0, none, none, none, [.Start]⟩
  | some form =>
    handlerCore env (formGet form.Version) (formGet form.SAMLAssertion)
      (formGet form.DurationSeconds) creds0

/-- The clamp applied to a parsed `DurationSeconds` value (source lines
198–204): values below 900 become 900, then values above 14400 become 14400. -/
def clampDuration (d : Int) : Int :=
  let d1 := if d < 900 then 900 else d
  if d1 > 14400 then 14400 else d1

/-- The stage order the spec's state machine claims. -/
def specStageOrder : List Stage :=
  [.Start, .FormParsed, .AssertionParsed, .DurationResolved, .IdPConfirmed,
   .CredentialMinted, .Published, .ResponseSent]

/-- The stage order the code actually follows: duration resolution happens
after the IdP confirmation call. -/
def codeStageOrder : List Stage :=
  [.Start, .FormParsed, .AssertionParsed, .IdPConfirmed, .DurationResolved,
   .CredentialMinted, .Published, .ResponseSent]

/-! ## Concrete fixtures used by witnesses and counterexamples -/

/-- A concrete SAML assertion handle. -/
def cHandle : SAMLHandle :=
  ⟨"https://idp.example/sso", ⟨"https://idp.example"⟩, "ASSERTIONBLOB"⟩

/-- A concrete `ParseSAMLResponse` accepting exactly one payload, which it
keeps verbatim as the original assertion. -/
def cParse : String → Except String SAMLHandle := fun s =>
  if s = "ASSERTIONBLOB" then .ok cHandle else .error "Unable to parse saml assertion."

/-- A concrete minter echoing the requested expiry. -/
def cMint : Int → Except String credential := fun t =>
  .ok ⟨"AKIA", "SECRET", "TOKEN", t⟩

/-- Environment whose IdP always answers HTTP 200, clock at t = 1000 s. -/
def cEnv : STSEnv := ⟨cParse, fun _ _ => .ok 200, cMint, 1000⟩

/-- Environment whose IdP always answers HTTP 503. -/
def cEnv503 : STSEnv := ⟨cParse, fun _ _ => .ok 503, cMint, 1000⟩

/-- A well-formed request form with `DurationSeconds=600`. -/
def cForm : Form := ⟨some "2011-06-15", some "ASSERTIONBLOB", some "600"⟩

/-- A well-formed request form with an unparseable `DurationSeconds`. -/
def cFormBadDur : Form := ⟨some "2011-06-15", some "ASSERTIONBLOB", some "abc"⟩

/-- A request form with a wrong protocol version. -/
def cFormBadVersion : Form := ⟨some "2010-01-01", some "ASSERTIONBLOB", none⟩

/-- The credential `cEnv` mints for `cForm` (600 s clamps to 900, so the
expiry is 1000 + 900). -/
def cCred : credential := ⟨"AKIA", "SECRET", "TOKEN", 1900⟩

/-- The success result the handler produces for `cEnv`/`cForm`. -/
def cResult : AssumeRoleWithSAMLResult :=
  ⟨⟨"", ""⟩, "", cCred, "https://idp.example",
   nameQualifierOf "https://idp.example", 0, "", ""⟩

/-! ## Helper lemmas -/

theorem handler_some (env : STSEnv) (form : Form) (c0 : Option credential) :
    AssumeRoleWithSAMLHandler env (some form) c0 =
      handlerCore env (formGet form.Version) (formGet form.SAMLAssertion)
        (formGet form.DurationSeconds) c0 := rfl

theorem clampDuration_bounds (d : Int) :
    900 ≤ clampDuration d ∧ clampDuration d ≤ 14400 := by
  simp only [clampDuration]
  split_ifs <;> omega

theorem resolveExpiry_empty (now : Int) :
    resolveExpiry now "" = .ok (now + 14400) := by
  simp [resolveExpiry]

theorem resolveExpiry_parsed (now : Int) (ds : String) (d : Int)
    (hds : ds ≠ "") (hp : parseInt10 ds = some d) :
    resolveExpiry now ds = .ok (now + clampDuration d) := by
  simp [resolveExpiry, hds, hp, clampDuration]

theorem resolveExpiry_ok_bounds (now : Int) (ds : String) (t : Int)
    (h : resolveExpiry now ds = .ok t) :
    now + 900 ≤ t ∧ t ≤ now + 14400 := by
  by_cases hds : ds = ""
  · subst hds
    rw [resolveExpiry_empty] at h
    cases h
    omega
  · cases hp : parseInt10 ds with
    | none => simp [resolveExpiry, hds, hp] at h
    | some d =>
      rw [resolveExpiry_parsed now ds d hds hp] at h
      cases h
      have := clampDuration_bounds d
      omega

/-- The seven-way branch characterization of `handlerCore`: exactly one of the
version check, assertion parse, IdP network call, IdP status check, duration
resolution, or credential minting fails, or all succeed; in each case the full
`Outcome` is determined. -/
theorem handlerCore_branches (env : STSEnv) (v sa ds : String)
    (c0 : Option credential) :
    (v ≠ stsAPIVersion ∧
      handlerCore env v sa ds c0 =
        ⟨.error .MalformedPolicyDocument, c0, none, none, none,
         [.Start, .FormParsed]⟩) ∨
    (v = stsAPIVersion ∧ ∃ e, env.ParseSAMLResponse sa = .error e ∧
      handlerCore env v sa ds c0 =
        ⟨.error .MalformedPolicyDocument, c0, none, none, none,
         [.Start, .FormParsed]⟩) ∨
    (v = stsAPIVersion ∧ ∃ hndl e, env.ParseSAMLResponse sa = .ok hndl ∧
      env.postForm hndl.Destination hndl.origSAMLAssertion = .error e ∧
      handlerCore env v sa ds c0 =
        ⟨.error .MalformedPolicyDocument, c0,
         some (hndl.Destination, hndl.origSAMLAssertion), some (.error e), none,
         [.Start, .FormParsed, .AssertionParsed]⟩) ∨
    (v = stsAPIVersion ∧ ∃ hndl s, env.ParseSAMLResponse sa = .ok hndl ∧
      env.postForm hndl.Destination hndl.origSAMLAssertion = .ok s ∧ 500 ≤ s ∧
      handlerCore env v sa ds c0 =
        ⟨.error .IDPRejectedClaim, c0,
         some (hndl.Destination, hndl.origSAMLAssertion), some (.ok s), none,
         [.Start, .FormParsed, .AssertionParsed]⟩) ∨
    (v = stsAPIVersion ∧ ∃ hndl s e, env.ParseSAMLResponse sa = .ok hndl ∧
      env.postForm hndl.Destination hndl.origSAMLAssertion = .ok s ∧ ¬ 500 ≤ s ∧
      resolveExpiry env.UTCNow ds = .error e ∧
      handlerCore env v sa ds c0 =
        ⟨.error .MalformedPolicyDocument, c0,
         some (hndl.Destination, hndl.origSAMLAssertion), some (.ok s), none,
         [.Start, .FormParsed, .AssertionParsed, .IdPConfirmed]⟩) ∨
    (v = stsAPIVersion ∧ ∃ hndl s t e, env.ParseSAMLResponse sa = .ok hndl ∧
      env.postForm hndl.Destination hndl.origSAMLAssertion = .ok s ∧ ¬ 500 ≤ s ∧
      resolveExpiry env.UTCNow ds = .ok t ∧
      env.getNewCredentialWithExpiry t = .error e ∧
      handlerCore env v sa ds c0 =
        ⟨.error .MalformedPolicyDocument, c0,
         some (hndl.Destination, hndl.origSAMLAssertion), some (.ok s), some t,
         [.Start, .FormParsed, .AssertionParsed, .IdPConfirmed,
          .DurationResolved]⟩) ∨
    (v = stsAPIVersion ∧ ∃ hndl s t cred, env.ParseSAMLResponse sa = .ok hndl ∧
      env.postForm hndl.Destination hndl.origSAMLAssertion = .ok s ∧ ¬ 500 ≤ s ∧
      resolveExpiry env.UTCNow ds = .ok t ∧
      env.getNewCredentialWithExpiry t = .ok cred ∧
      handlerCore env v sa ds c0 =
        ⟨.success ⟨⟨"", ""⟩, "", cred, hndl.Issuer.URL,
           nameQualifierOf hndl.Issuer.URL, 0, "", ""⟩,
         some cred, some (hndl.Destination, hndl.origSAMLAssertion),
         some (.ok s), some t, codeStageOrder⟩) := by
  by_cases hv : v = stsAPIVersion
  · cases hp : env.ParseSAMLResponse sa with
    | error e =>
      exact Or.inr (Or.inl ⟨hv, e, rfl, by simp [handlerCore, hv, hp]⟩)
    | ok hndl =>
      cases hr : env.postForm hndl.Destination hndl.origSAMLAssertion with
      | error e =>
        exact Or.inr (Or.inr (Or.inl
          ⟨hv, hndl, e, rfl, hr, by simp [handlerCore, hv, hp, hr]⟩))
      | ok s =>
        by_cases hs : 500 ≤ s
        · exact Or.inr (Or.inr (Or.inr (Or.inl
            ⟨hv, hndl, s, rfl, hr, hs, by simp [handlerCore, hv, hp, hr, hs]⟩)))
        · cases hd : resolveExpiry env.UTCNow ds with
          | error e =>
            exact Or.inr (Or.inr (Or.inr (Or.inr (Or.inl
              ⟨hv, hndl, s, e, rfl, hr, hs, rfl,
               by simp [handlerCore, hv, hp, hr, hs, hd]⟩))))
          | ok t =>
            cases hm : env.getNewCredentialWithExpiry t with
            | error e =>
              exact Or.inr (Or.inr (Or.inr (Or.inr (Or.inr (Or.inl
                ⟨hv, hndl, s, t, e, rfl, hr, hs, rfl, hm,
                 by simp [handlerCore, hv, hp, hr, hs, hd, hm]⟩)))))
            | ok cred =>
              refine Or.inr (Or.inr (Or.inr (Or.inr (Or.inr (Or.inr
                ⟨hv, hndl, s, t, cred, rfl, hr, hs, rfl, hm, ?_⟩)))))
              simp [handlerCore, hv, hp, hr, hs, hd, hm, nameQualifierOf,
                codeStageOrder]
  · exact Or.inl ⟨hv, by simp [handlerCore, hv]⟩

theorem mintExpiry_resolves (env : STSEnv) (v sa ds : String)
    (c0 : Option credential) (t : Int)
    (h : (handlerCore env v sa ds c0).mintExpiry = some t) :
    resolveExpiry env.UTCNow ds = .ok t := by
  rcases handlerCore_branches env v sa ds c0 with
    ⟨_, he⟩ | ⟨_, e, _, he⟩ | ⟨_, hndl, e, _, _, he⟩ | ⟨_, hndl, s, _, _, _, he⟩ |
    ⟨_, hndl, s, e, _, _, _, _, he⟩ | ⟨_, hndl, s, t0, e, _, _, _, hd, _, he⟩ |
    ⟨_, hndl, s, t0, cred, _, _, _, hd, _, he⟩
  · rw [he] at h; simp at h
  · rw [he] at h; simp at h
  · rw [he] at h; simp at h
  · rw [he] at h; simp at h
  · rw [he] at h; simp at h
  · rw [he] at h; simp at h; exact h ▸ hd
  · rw [he] at h; simp at h; exact h ▸ hd

theorem handlerCore_success (env : STSEnv) (v sa ds : String)
    (c0 : Option credential) (r : AssumeRoleWithSAMLResult)
    (h : (handlerCore env v sa ds c0).response = .success r) :
    ∃ hndl s t cred, env.ParseSAMLResponse sa = .ok hndl ∧
      env.postForm hndl.Destination hndl.origSAMLAssertion = .ok s ∧ ¬ 500 ≤ s ∧
      resolveExpiry env.UTCNow ds = .ok t ∧
      env.getNewCredentialWithExpiry t = .ok cred ∧
      r = ⟨⟨"", ""⟩, "", cred, hndl.Issuer.URL,
        nameQualifierOf hndl.Issuer.URL, 0, "", ""⟩ ∧
      handlerCore env v sa ds c0 =
        ⟨.success r, some cred, some (hndl.Destination, hndl.origSAMLAssertion),
         some (.ok s), some t, codeStageOrder⟩ := by
  rcases handlerCore_branches env v sa ds c0 with
    ⟨_, he⟩ | ⟨_, e, _, he⟩ | ⟨_, hndl, e, _, _, he⟩ | ⟨_, hndl, s, _, _, _, he⟩ |
    ⟨_, hndl, s, e, _, _, _, _, he⟩ | ⟨_, hndl, s, t, e, _, _, _, _, _, he⟩ |
    ⟨_, hndl, s, t, cred, hp, hr, hs, hd, hm, he⟩
  · rw [he] at h; simp at h
  · rw [he] at h; simp at h
  · rw [he] at h; simp at h
  · rw [he] at h; simp at h
  · rw [he] at h; simp at h
  · rw [he] at h; simp at h
  · rw [he] at h
    simp only [STSResponse.success.injEq] at h
    subst h
    exact ⟨hndl, s, t, cred, hp, hr, hs, hd, hm, rfl, he⟩

theorem success_nameQualifier (env : STSEnv) (req : Option Form)
    (c0 : Option credential) (r : AssumeRoleWithSAMLResult)
    (h : (AssumeRoleWithSAMLHandler env req c0).response = .success r) :
    r.NameQualifier = nameQualifierOf r.Issuer := by
  cases req with
  | none => simp [AssumeRoleWithSAMLHandler] at h
  | some form =>
    rw [handler_some] at h
    obtain ⟨hndl, s, t, cred, _, _, _, _, _, hrr, _⟩ :=
      handlerCore_success _ _ _ _ _ _ h
    subst hrr
    rfl

/-! ## Claims -/

/-- Claim C1: for every request that reaches credential minting, an absent
`DurationSeconds` yields expiry now + 14400 s; a present value that parses as
a base-10 integer d yields expiry now + clamp(d, 900, 14400); hence the expiry
handed to the minter always lies within [now + 900 s, now + 14400 s]. -/
theorem sts_duration_clamp_invariant (env : STSEnv) (form : Form)
    (c0 : Option credential) (t : Int)
    (h : (AssumeRoleWithSAMLHandler env (some form) c0).mintExpiry = some t) :
    (form.DurationSeconds = none → t = env.UTCNow + 14400) ∧
    (∀ s d, form.DurationSeconds = some s → parseInt10 s = some d →
      t = env.UTCNow + clampDuration d) ∧
    env.UTCNow + 900 ≤ t ∧ t ≤ env.UTCNow + 14400 := by
  rw [handler_some] at h
  have hres := mintExpiry_resolves _ _ _ _ _ _ h
  have hb := resolveExpiry_ok_bounds _ _ _ hres
  refine ⟨?_, ?_, hb.1, hb.2⟩
  · intro hnone
    rw [hnone] at hres
    simp only [formGet] at hres
    rw [resolveExpiry_empty] at hres
    simpa using hres.symm
  · intro s d hs hp
    rw [hs] at hres
    simp only [formGet] at hres
    by_cases hemp : s = ""
    · subst hemp; simp [parseInt10] at hp
    · rw [resolveExpiry_parsed env.UTCNow s d hemp hp] at hres
      simpa using hres.symm

set_option maxRecDepth 2000000 in
/-- Witness for C1: the fixture request with `DurationSeconds=600` mints with
expiry 1900 = 1000 + clamp(600) = 1000 + 900. -/
theorem sts_duration_clamp_invariant_witness :
    (cForm.DurationSeconds = none → (1900 : Int) = cEnv.UTCNow + 14400) ∧
    (∀ s d, cForm.DurationSeconds = some s → parseInt10 s = some d →
      (1900 : Int) = cEnv.UTCNow + clampDuration d) ∧
    cEnv.UTCNow + 900 ≤ (1900 : Int) ∧ (1900 : Int) ≤ cEnv.UTCNow + 14400 :=
  sts_duration_clamp_invariant cEnv cForm none 1900 (by decide)

set_option maxRecDepth 2000000 in
/-- Counterexample to C2 as stated: on a fully successful request the handler
confirms with the IdP first and resolves `DurationSeconds` only afterwards, so
the trace places `IdPConfirmed` strictly before `DurationResolved` and is not
the order the spec's state machine claims. -/
theorem sts_stage_order_counterexample :
    (AssumeRoleWithSAMLHandler cEnv (some cForm) none).idpCall.isSome = true ∧
    Stage.IdPConfirmed ∈ (AssumeRoleWithSAMLHandler cEnv (some cForm) none).trace ∧
    Stage.DurationResolved ∈ (AssumeRoleWithSAMLHandler cEnv (some cForm) none).trace ∧
    (AssumeRoleWithSAMLHandler cEnv (some cForm) none).trace.indexOf Stage.IdPConfirmed <
      (AssumeRoleWithSAMLHandler cEnv (some cForm) none).trace.indexOf Stage.DurationResolved ∧
    (AssumeRoleWithSAMLHandler cEnv (some cForm) none).trace ≠ specStageOrder := by
  decide

/-- Claim C2 (amended): the stages occur in the order Start, FormParsed,
AssertionParsed, IdPConfirmed, DurationResolved, CredentialMinted, Published,
ResponseSent — every trace is a prefix of this order and a successful request
passes all eight stages; `DurationSeconds` is resolved after the IdP
confirmation call, not before it. -/
theorem sts_stage_order (env : STSEnv) (req : Option Form)
    (c0 : Option credential) :
    (∃ n, (AssumeRoleWithSAMLHandler env req c0).trace = codeStageOrder.take n) ∧
    (∀ r, (AssumeRoleWithSAMLHandler env req c0).response = .success r →
      (AssumeRoleWithSAMLHandler env req c0).trace = codeStageOrder) := by
  cases req with
  | none =>
    exact ⟨⟨1, rfl⟩, fun r hr => by simp [AssumeRoleWithSAMLHandler] at hr⟩
  | some form =>
    rw [handler_some]
    rcases handlerCore_branches env (formGet form.Version)
        (formGet form.SAMLAssertion) (formGet form.DurationSeconds) c0 with
      ⟨_, he⟩ | ⟨_, e, _, he⟩ | ⟨_, hndl, e, _, _, he⟩ | ⟨_, hndl, s, _, _, _, he⟩ |
      ⟨_, hndl, s, e, _, _, _, _, he⟩ | ⟨_, hndl, s, t, e, _, _, _, _, _, he⟩ |
      ⟨_, hndl, s, t, cred, _, _, _, _, _, he⟩ <;> rw [he]
    · exact ⟨⟨2, rfl⟩, fun r hr => by simp at hr⟩
    · exact ⟨⟨2, rfl⟩, fun r hr => by simp at hr⟩
    · exact ⟨⟨3, rfl⟩, fun r hr => by simp at hr⟩
    · exact ⟨⟨3, rfl⟩, fun r hr => by simp at hr⟩
    · exact ⟨⟨4, rfl⟩, fun r hr => by simp at hr⟩
    · exact ⟨⟨5, rfl⟩, fun r hr => by simp at hr⟩
    · exact ⟨⟨8, rfl⟩, fun r hr => rfl⟩

set_option maxRecDepth 2000000 in
/-- Witness for C2 (amended): the fixture success request passes all eight
stages in the code's order. -/
theorem sts_stage_order_witness :
    (AssumeRoleWithSAMLHandler cEnv (some cForm) none).trace = codeStageOrder :=
  (sts_stage_order cEnv (some cForm) none).2 cResult (by decide)

/-- Claim C3: every failing request leaves the process-wide credential store
unchanged — no credential is minted or published. -/
theorem sts_failure_no_publish (env : STSEnv) (req : Option Form)
    (c0 : Option credential) (code : STSErrorCode)
    (h : (AssumeRoleWithSAMLHandler env req c0).response = .error code) :
    (AssumeRoleWithSAMLHandler env req c0).serverCreds = c0 := by
  cases req with
  | none => rfl
  | some form =>
    rw [handler_some] at h ⊢
    rcases handlerCore_branches env (formGet form.Version)
        (formGet form.SAMLAssertion) (formGet form.DurationSeconds) c0 with
      ⟨_, he⟩ | ⟨_, e, _, he⟩ | ⟨_, hndl, e, _, _, he⟩ | ⟨_, hndl, s, _, _, _, he⟩ |
      ⟨_, hndl, s, e, _, _, _, _, he⟩ | ⟨_, hndl, s, t, e, _, _, _, _, _, he⟩ |
      ⟨_, hndl, s, t, cred, _, _, _, _, _, he⟩
    all_goals rw [he] at h ⊢
    all_goals first | rfl | simp at h

set_option maxRecDepth 2000000 in
/-- Witness for C3: a version-mismatch request leaves the (empty) store
empty. -/
theorem sts_failure_no_publish_witness :
    (AssumeRoleWithSAMLHandler cEnv (some cFormBadVersion) none).serverCreds = none :=
  sts_failure_no_publish cEnv (some cFormBadVersion) none
    .MalformedPolicyDocument (by decide)

/-- Claim C4: every failing request is answered with exactly one of
`MalformedPolicyDocument` or `IDPRejectedClaim`, and `IDPRejectedClaim` is
emitted exactly when the IdP confirmation returned an HTTP status ≥ 500. -/
theorem sts_error_taxonomy (env : STSEnv) (req : Option Form)
    (c0 : Option credential) :
    (∀ code, (AssumeRoleWithSAMLHandler env req c0).response = .error code →
      code = .MalformedPolicyDocument ∨ code = .IDPRejectedClaim) ∧
    ((AssumeRoleWithSAMLHandler env req c0).response = .error .IDPRejectedClaim ↔
      ∃ s, (AssumeRoleWithSAMLHandler env req c0).idpResult = some (.ok s) ∧
        500 ≤ s) := by
  cases req with
  | none =>
    constructor
    · intro code hc
      simp [AssumeRoleWithSAMLHandler] at hc
      exact Or.inl hc.symm
    · simp [AssumeRoleWithSAMLHandler]
  | some form =>
    rw [handler_some]
    rcases handlerCore_branches env (formGet form.Version)
        (formGet form.SAMLAssertion) (formGet form.DurationSeconds) c0 with
      ⟨_, he⟩ | ⟨_, e, _, he⟩ | ⟨_, hndl, e, _, _, he⟩ | ⟨_, hndl, s, _, _, hs, he⟩ |
      ⟨_, hndl, s, e, _, _, hs, _, he⟩ | ⟨_, hndl, s, t, e, _, _, hs, _, _, he⟩ |
      ⟨_, hndl, s, t, cred, _, _, hs, _, _, he⟩ <;> rw [he] <;> constructor
    · intro code hc; simp at hc; exact Or.inl hc.symm
    · simp
    · intro code hc; simp at hc; exact Or.inl hc.symm
    · simp
    · intro code hc; simp at hc; exact Or.inl hc.symm
    · simp
    · intro code hc; simp at hc; exact Or.inr hc.symm
    · simp [hs]
    · intro code hc; simp at hc; exact Or.inl hc.symm
    · simp; omega
    · intro code hc; simp at hc; exact Or.inl hc.symm
    · simp; omega
    · intro code hc; simp at hc
    · simp; omega

set_option maxRecDepth 2000000 in
/-- Witness for C4: with a 503-answering IdP the response is
`IDPRejectedClaim`, and the theorem recovers the status ≥ 500. -/
theorem sts_error_taxonomy_witness :
    ∃ s, (AssumeRoleWithSAMLHandler cEnv503 (some cForm) none).idpResult =
      some (.ok s) ∧ 500 ≤ s :=
  (sts_error_taxonomy cEnv503 (some cForm) none).2.mp (by decide)

set_option maxRecDepth 2000000 in
/-- Counterexample to C5 as stated: an IdP answer of 200 does not guarantee
the request proceeds to credential minting — with an unparseable
`DurationSeconds` the request fails after the IdP call, before minting. -/
theorem sts_idp_accept_counterexample :
    (AssumeRoleWithSAMLHandler cEnv (some cFormBadDur) none).idpResult =
      some (.ok 200) ∧
    (200 : Nat) < 500 ∧
    (AssumeRoleWithSAMLHandler cEnv (some cFormBadDur) none).mintExpiry = none ∧
    Stage.CredentialMinted ∉
      (AssumeRoleWithSAMLHandler cEnv (some cFormBadDur) none).trace ∧
    (AssumeRoleWithSAMLHandler cEnv (some cFormBadDur) none).response =
      .error .MalformedPolicyDocument := by
  decide

/-- Claim C5 (amended): an IdP status ≥ 500 fails the request with
`IDPRejectedClaim`; a status < 500 is treated as acceptance — the request is
never rejected with `IDPRejectedClaim`, passes the IdP confirmation stage, and
reaches credential minting provided `DurationSeconds` resolution succeeds. -/
theorem sts_idp_status_check (env : STSEnv) (form : Form)
    (c0 : Option credential) (s : Nat)
    (h : (AssumeRoleWithSAMLHandler env (some form) c0).idpResult =
      some (.ok s)) :
    (500 ≤ s → (AssumeRoleWithSAMLHandler env (some form) c0).response =
      .error .IDPRejectedClaim) ∧
    (s < 500 →
      Stage.IdPConfirmed ∈ (AssumeRoleWithSAMLHandler env (some form) c0).trace ∧
      (AssumeRoleWithSAMLHandler env (some form) c0).response ≠
        .error .IDPRejectedClaim ∧
      ∀ t, resolveExpiry env.UTCNow (formGet form.DurationSeconds) = .ok t →
        (AssumeRoleWithSAMLHandler env (some form) c0).mintExpiry = some t) := by
  rw [handler_some] at h ⊢
  rcases handlerCore_branches env (formGet form.Version)
      (formGet form.SAMLAssertion) (formGet form.DurationSeconds) c0 with
    ⟨_, he⟩ | ⟨_, e, _, he⟩ | ⟨_, hndl, e, _, _, he⟩ | ⟨_, hndl, s0, _, _, hs, he⟩ |
    ⟨_, hndl, s0, e, _, _, hs, hd, he⟩ | ⟨_, hndl, s0, t0, e, _, _, hs, hd, _, he⟩ |
    ⟨_, hndl, s0, t0, cred, _, _, hs, hd, _, he⟩
  · rw [he] at h; simp at h
  · rw [he] at h; simp at h
  · rw [he] at h; simp at h
  · rw [he] at h ⊢
    simp only [Option.some.injEq, Except.ok.injEq] at h
    subst h
    exact ⟨fun _ => rfl, fun hlt => absurd hs (by omega)⟩
  · rw [he] at h ⊢
    simp only [Option.some.injEq, Except.ok.injEq] at h
    subst h
    refine ⟨fun h500 => absurd h500 hs, fun _ => ⟨by simp, by simp, ?_⟩⟩
    intro t ht
    rw [hd] at ht
    simp at ht
  · rw [he] at h ⊢
    simp only [Option.some.injEq, Except.ok.injEq] at h
    subst h
    refine ⟨fun h500 => absurd h500 hs, fun _ => ⟨by simp, by simp, ?_⟩⟩
    intro t ht
    rw [hd] at ht
    simp only [Except.ok.injEq] at ht
    simp [ht]
  · rw [he] at h ⊢
    simp only [Option.some.injEq, Except.ok.injEq] at h
    subst h
    refine ⟨fun h500 => absurd h500 hs, fun _ => ⟨by show Stage.IdPConfirmed ∈ codeStageOrder; decide, by simp, ?_⟩⟩
    intro t ht
    rw [hd] at ht
    simp only [Except.ok.injEq] at ht
    simp [ht]

set_option maxRecDepth 2000000 in
/-- Witness for C5 (amended): with the 200-answering IdP and
`DurationSeconds=600`, minting is reached with expiry 1900. -/
theorem sts_idp_status_check_witness :
    (AssumeRoleWithSAMLHandler cEnv (some cForm) none).mintExpiry = some 1900 :=
  ((sts_idp_status_check cEnv cForm none 200 (by decide)).2
    (by decide)).2.2 1900 (by decide)

/-- Claim C6: a request whose `Version` field is absent or differs from
"2011-06-15" is answered with `MalformedPolicyDocument`, no outbound IdP call
is made, no credential is minted, and the store is unchanged (an absent field
reads as `""`, which never equals the version string). -/
theorem sts_version_gate (env : STSEnv) (form : Form) (c0 : Option credential)
    (h : formGet form.Version ≠ stsAPIVersion) :
    (AssumeRoleWithSAMLHandler env (some form) c0).response =
      .error .MalformedPolicyDocument ∧
    (AssumeRoleWithSAMLHandler env (some form) c0).idpCall = none ∧
    (AssumeRoleWithSAMLHandler env (some form) c0).serverCreds = c0 ∧
    (AssumeRoleWithSAMLHandler env (some form) c0).mintExpiry = none := by
  rw [handler_some]
  simp [handlerCore, h]

set_option maxRecDepth 2000000 in
/-- Witness for C6: the `Version=2010-01-01` fixture is rejected without any
outbound call or store change. -/
theorem sts_version_gate_witness :
    (AssumeRoleWithSAMLHandler cEnv (some cFormBadVersion) none).response =
      .error .MalformedPolicyDocument ∧
    (AssumeRoleWithSAMLHandler cEnv (some cFormBadVersion) none).idpCall = none ∧
    (AssumeRoleWithSAMLHandler cEnv (some cFormBadVersion) none).serverCreds = none ∧
    (AssumeRoleWithSAMLHandler cEnv (some cFormBadVersion) none).mintExpiry = none :=
  sts_version_gate cEnv cFormBadVersion none (by decide)

/-- Claim C7: on every successful request the returned `NameQualifier` is
base64(SHA-1(issuer URL ++ "0000" ++ "myidp")) — the fixed account-id and
provider-name literals — so any two successful requests whose assertions carry
the same issuer URL get the same `NameQualifier`. -/
theorem sts_name_qualifier (env1 env2 : STSEnv) (req1 req2 : Option Form)
    (c1 c2 : Option credential) (r1 r2 : AssumeRoleWithSAMLResult)
    (h1 : (AssumeRoleWithSAMLHandler env1 req1 c1).response = .success r1)
    (h2 : (AssumeRoleWithSAMLHandler env2 req2 c2).response = .success r2) :
    r1.NameQualifier =
      base64Encode (sha1Bytes (utf8Bytes (r1.Issuer ++ "0000" ++ "myidp"))) ∧
    (r1.Issuer = r2.Issuer → r1.NameQualifier = r2.NameQualifier) := by
  have e1 := success_nameQualifier env1 req1 c1 r1 h1
  have e2 := success_nameQualifier env2 req2 c2 r2 h2
  refine ⟨e1, fun hiss => ?_⟩
  rw [e1, e2, hiss]

set_option maxRecDepth 2000000 in
/-- Witness for C7: applied to the fixture success run (same request twice). -/
theorem sts_name_qualifier_witness :
    cResult.NameQualifier =
      base64Encode (sha1Bytes (utf8Bytes (cResult.Issuer ++ "0000" ++ "myidp"))) ∧
    (cResult.Issuer = cResult.Issuer →
      cResult.NameQualifier = cResult.NameQualifier) :=
  sts_name_qualifier cEnv cEnv (some cForm) (some cForm) none none
    cResult cResult (by decide) (by decide)

/-- Claim C8: whenever the outbound IdP call is issued, it is a form POST to
the assertion's declared destination whose `SAMLResponse` field is exactly the
handle's original assertion payload; and if the external parser keeps the
original input verbatim (as the spec states), that payload is exactly the
`SAMLAssertion` form field as received. -/
theorem sts_idp_call_payload (env : STSEnv) (form : Form)
    (c0 : Option credential) (dest payload : String)
    (h : (AssumeRoleWithSAMLHandler env (some form) c0).idpCall =
      some (dest, payload)) :
    ∃ hndl, env.ParseSAMLResponse (formGet form.SAMLAssertion) = .ok hndl ∧
      dest = hndl.Destination ∧ payload = hndl.origSAMLAssertion ∧
      ((∀ s h2, env.ParseSAMLResponse s = .ok h2 → h2.origSAMLAssertion = s) →
        payload = formGet form.SAMLAssertion) := by
  rw [handler_some] at h
  rcases handlerCore_branches env (formGet form.Version)
      (formGet form.SAMLAssertion) (formGet form.DurationSeconds) c0 with
    ⟨_, he⟩ | ⟨_, e, _, he⟩ | ⟨_, hndl, e, hp, _, he⟩ | ⟨_, hndl, s, hp, _, _, he⟩ |
    ⟨_, hndl, s, e, hp, _, _, _, he⟩ | ⟨_, hndl, s, t, e, hp, _, _, _, _, he⟩ |
    ⟨_, hndl, s, t, cred, hp, _, _, _, _, he⟩
  · rw [he] at h; simp at h
  · rw [he] at h; simp at h
  all_goals {
    rw [he] at h
    simp only [Outcome.idpCall, Option.some.injEq, Prod.mk.injEq] at h
    obtain ⟨hdst, hpl⟩ := h
    exact ⟨hndl, hp, hdst.symm, hpl.symm,
      fun horig => hpl.symm.trans (horig _ _ hp)⟩ }

set_option maxRecDepth 2000000 in
/-- Witness for C8: the fixture call posts to the handle's destination with
the original payload. -/
theorem sts_idp_call_payload_witness :
    ∃ hndl, cEnv.ParseSAMLResponse (formGet cForm.SAMLAssertion) = .ok hndl ∧
      "https://idp.example/sso" = hndl.Destination ∧
      "ASSERTIONBLOB" = hndl.origSAMLAssertion ∧
      ((∀ s h2, cEnv.ParseSAMLResponse s = .ok h2 → h2.origSAMLAssertion = s) →
        "ASSERTIONBLOB" = formGet cForm.SAMLAssertion) :=
  sts_idp_call_payload cEnv cForm none "https://idp.example/sso" "ASSERTIONBLOB"
    (by decide)

/-- Claim C9: every successful response carries the minted credential (also
published as the server credential), an `AssumedRoleUser` with its `Arn` and
`AssumedRoleID` components (left at their zero values, as the source does),
and the optional fields `Audience`, `PackedPolicySize`, `Subject`,
`SubjectType` unpopulated; `Issuer` and `NameQualifier` are carried by
construction of the result. -/
theorem sts_success_result_shape (env : STSEnv) (req : Option Form)
    (c0 : Option credential) (r : AssumeRoleWithSAMLResult)
    (h : (AssumeRoleWithSAMLHandler env req c0).response = .success r) :
    (AssumeRoleWithSAMLHandler env req c0).serverCreds = some r.Credentials ∧
    r.AssumedRoleUser = ⟨"", ""⟩ ∧ r.Audience = "" ∧ r.PackedPolicySize = 0 ∧
    r.Subject = "" ∧ r.SubjectType = "" := by
  cases req with
  | none => simp [AssumeRoleWithSAMLHandler] at h
  | some form =>
    rw [handler_some] at h ⊢
    obtain ⟨hndl, s, t, cred, _, _, _, _, _, hrr, he⟩ :=
      handlerCore_success _ _ _ _ _ _ h
    subst hrr
    rw [he]
    exact ⟨rfl, rfl, rfl, rfl, rfl, rfl⟩

set_option maxRecDepth 2000000 in
/-- Witness for C9: the fixture success run publishes `cCred` and returns the
result shape. -/
theorem sts_success_result_shape_witness :
    (AssumeRoleWithSAMLHandler cEnv (some cForm) none).serverCreds =
      some cResult.Credentials ∧
    cResult.AssumedRoleUser = ⟨"", ""⟩ ∧ cResult.Audience = "" ∧
    cResult.PackedPolicySize = 0 ∧ cResult.Subject = "" ∧
    cResult.SubjectType = "" :=
  sts_success_result_shape cEnv (some cForm) none cResult (by decide)

/-- Claim C10: a `DurationSeconds` field that is present but empty behaves
exactly like an absent one — the whole outcome is identical — and the
resolution then defaults to now + 14400 s with no parse failure. -/
theorem sts_empty_duration_default (env : STSEnv) (v sa : Option String)
    (c0 : Option credential) :
    AssumeRoleWithSAMLHandler env (some ⟨v, sa, some ""⟩) c0 =
      AssumeRoleWithSAMLHandler env (some ⟨v, sa, none⟩) c0 ∧
    resolveExpiry env.UTCNow "" = .ok (env.UTCNow + 14400) :=
  ⟨rfl, resolveExpiry_empty env.UTCNow⟩
